import Mathlib

/-!
Shallow embedding of `src/index.ts` of o3-search-mcp: configuration reading,
the o3-search tool handler, the declared input schema, and the process
lifecycle (shutdown routine, triggers, maximum-runtime timer), together with
proofs of the specification claims about them.
-/

namespace O3SearchMcp

/-! ## Configuration (src/index.ts lines 13-27) -/

/-- The process environment: a partial map from variable names to values
(`none` models an unset variable / JS `undefined`). -/
abbrev Env : Type := String → Option String

/-- JS `a || b` where `a` is a possibly-absent string: both `undefined` and
the empty string are falsy and select `b`. -/
def jsStringOr (a : Option String) (b : String) : String :=
  match a with
  | none => b
  | some s => if s = "" then b else s

/-- JS `process.env.NAME || dflt` (lines 16-26): an unset variable and the
empty string both give the default. -/
def envOr (env : Env) (key dflt : String) : String :=
  jsStringOr (env key) dflt

/-- Value of a run of decimal digits. -/
def digitsToNat (cs : List Char) : Nat :=
  cs.foldl (fun acc c => 10 * acc + (c.toNat - 48)) 0

/-- JS `parseInt` on a base-10 string, modelled for an optional sign followed
by digits with trailing garbage ignored (`NaN` becomes `none`; the
leading-whitespace handling of JS parseInt is not needed by any
configuration string in the program). -/
def jsParseInt (s : String) : Option Int :=
  match s.data with
  | '-' :: rest =>
      let digits := rest.takeWhile Char.isDigit
      if digits.isEmpty then none else some (-(digitsToNat digits : Int))
  | '+' :: rest =>
      let digits := rest.takeWhile Char.isDigit
      if digits.isEmpty then none else some (digitsToNat digits : Int)
  | cs =>
      let digits := cs.takeWhile Char.isDigit
      if digits.isEmpty then none else some (digitsToNat digits : Int)

/-- The `config` object (lines 14-27). Integer-valued fields are `Option Int`
with `none` modelling `NaN` from `parseInt`. -/
structure Config where
  apiKey : Option String
  maxRetries : Option Int
  timeout : Option Int
  searchContextSize : String
  reasoningEffort : String
  processTimeout : Option Int
  deriving Repr, DecidableEq

/-- Building `config` from the environment, read once at startup
(lines 14-27): each field applies the JS `||` default and, for the numeric
fields, `parseInt`. -/
def readConfig (env : Env) : Config :=
  { apiKey := env "OPENAI_API_KEY"
    maxRetries := jsParseInt (envOr env "OPENAI_MAX_RETRIES" "3")
    timeout := jsParseInt (envOr env "OPENAI_API_TIMEOUT" "60000")
    searchContextSize := envOr env "SEARCH_CONTEXT_SIZE" "medium"
    reasoningEffort := envOr env "REASONING_EFFORT" "medium"
    processTimeout := jsParseInt (envOr env "PROCESS_TIMEOUT" "300000") }

/-! ## The upstream call and the o3-search handler (lines 36-83) -/

/-- One entry of the `tools` array of the upstream request (lines 52-57). -/
structure WebSearchTool where
  type : String
  search_context_size : String
  deriving Repr, DecidableEq

/-- The `reasoning` field of the upstream request (line 60). -/
structure ReasoningParam where
  effort : String
  deriving Repr, DecidableEq

/-- The request object passed to `openai.responses.create` (lines 49-61). -/
structure UpstreamRequest where
  model : String
  input : String
  tools : List WebSearchTool
  tool_choice : String
  parallel_tool_calls : Bool
  reasoning : ReasoningParam
  deriving Repr, DecidableEq

/-- The upstream response as the handler consumes it: its aggregated
`output_text`, with `none` modelling an absent (undefined) text. -/
structure UpstreamResponse where
  output_text : Option String
  deriving Repr, DecidableEq

/-- Result of the awaited upstream call: `Except.ok` is a resolution and
`Except.error` a rejection. A rejection value of `some m` models
`error instanceof Error` with `error.message = m`; `none` models any
rejection value that is not an `Error` (no message extractable). -/
abbrev UpstreamResult : Type := Except (Option String) UpstreamResponse

/-- One content item of a tool response (lines 64-69 and 73-80). -/
structure ContentItem where
  type : String
  text : String
  deriving Repr, DecidableEq

/-- The tool response envelope returned by the handler. -/
structure ToolResponse where
  content : List ContentItem
  deriving Repr, DecidableEq

/-- The request the handler constructs (lines 49-61): fixed model "o3", the
input string, one web-search tool descriptor carrying the configured context
size, tool choice "auto", parallel tool calls permitted, and the configured
reasoning effort. -/
def buildRequest (cfg : Config) (input : String) : UpstreamRequest :=
  { model := "o3"
    input := input
    tools := [{ type := "web_search_preview"
                search_context_size := cfg.searchContextSize }]
    tool_choice := "auto"
    parallel_tool_calls := true
    reasoning := { effort := cfg.reasoningEffort } }

/-- The human-readable fault description of line 77:
`error instanceof Error ? error.message : "Unknown error occurred"`. -/
def faultDescription (e : Option String) : String :=
  match e with
  | some m => m
  | none => "Unknown error occurred"

/-- The o3-search tool handler (lines 47-82). `upstream` models the awaited
`openai.responses.create` call as a function of the request. The first
component of the result records, in order, every upstream request the handler
issues; the second is the returned tool response. The `try`/`catch` of the
source is the `match` on the call's `Except` result: a rejection is consumed
here and a response is still returned. -/
def handler (cfg : Config) (upstream : UpstreamRequest → UpstreamResult)
    (input : String) : List UpstreamRequest × ToolResponse :=
  let req := buildRequest cfg input
  match upstream req with
  | Except.ok resp =>
      ([req], { content := [{ type := "text"
                              text := jsStringOr resp.output_text
                                "No response text available." }] })
  | Except.error e =>
      ([req], { content := [{ type := "text"
                              text := "Error: " ++ faultDescription e }] })

/-! ## The declared input schema and dispatch (lines 40-46) -/

/-- A JSON value arriving as the tool-call argument field. -/
inductive JsonValue where
  | str (s : String)
  | num (n : Int)
  | boolean (b : Bool)
  | null
  deriving Repr, DecidableEq

/-- The declared input schema `z.string()` (lines 41-45): the single field must
be a string; every string value parses, with no further constraint. -/
def zString_safeParse : JsonValue → Option String
  | JsonValue.str s => some s
  | _ => none

/-- Protocol dispatch of one o3-search call: the argument field is validated
against the declared schema and, on success, handed to the handler unchanged;
the program performs no other check on it. -/
def dispatch (cfg : Config) (upstream : UpstreamRequest → UpstreamResult)
    (v : JsonValue) : Option (List UpstreamRequest × ToolResponse) :=
  (zString_safeParse v).map (handler cfg upstream)

/-! ## Lifecycle: shutdown routine, triggers and the process timer
(lines 85-141) -/

/-- One action of the lifecycle code. `log` covers both `console.log` and
`console.error` diagnostic lines; `clearTimeout` disarms the maximum-runtime
timer; `awaitTransportClose` is the `await transport.close()` suspension
point; `processExit` is `process.exit`. -/
inductive Step where
  | log (msg : String)
  | clearTimeout
  | awaitTransportClose
  | processExit (code : Nat)
  deriving Repr, DecidableEq, BEq

/-- Actions of the `shutdown` routine executed synchronously before its first
`await` (lines 98-99): the diagnostic line, then `clearTimeout`. -/
def shutdownSyncSteps (reason : String) : List Step :=
  [Step.log ("Received " ++ reason ++ ", shutting down gracefully..."),
   Step.clearTimeout]

/-- Actions of the `shutdown` routine from its first `await` on
(lines 100-106), given whether `transport.close()` succeeds: exit 0 on
success; log and exit 1 if the close faults. -/
def shutdownAsyncSteps (closeOk : Bool) : List Step :=
  Step.awaitTransportClose ::
    (if closeOk then [Step.processExit 0]
     else [Step.log "Error during shutdown:", Step.processExit 1])

/-- The full action sequence of the `shutdown` routine (lines 97-107). -/
def shutdownSteps (reason : String) (closeOk : Bool) : List Step :=
  shutdownSyncSteps reason ++ shutdownAsyncSteps closeOk

/-- Actions of `main().catch` (lines 138-141): an unrecoverable startup fault
is logged and the process exits 1; the shutdown routine is not invoked. -/
def startupFaultSteps (errDesc : String) : List Step :=
  [Step.log ("Fatal error in main(): " ++ errDesc), Step.processExit 1]

/-- The shutdown triggers registered in `main` (lines 91-135): the
maximum-runtime timer, the two termination signals, stdin end, stdin error,
uncaught exception and unhandled rejection. -/
inductive Trigger where
  | timeout
  | sigterm
  | sigint
  | stdinEnd
  | stdinError
  | uncaughtException
  | unhandledRejection
  deriving Repr, DecidableEq

/-- The reason string each trigger passes to `shutdown`
(lines 93, 110, 111, 116, 122, 128, 134). -/
def Trigger.reason : Trigger → String
  | Trigger.timeout => "timeout"
  | Trigger.sigterm => "SIGTERM"
  | Trigger.sigint => "SIGINT"
  | Trigger.stdinEnd => "stdin end"
  | Trigger.stdinError => "stdin error"
  | Trigger.uncaughtException => "uncaught exception"
  | Trigger.unhandledRejection => "unhandled rejection"

/-- What each registered trigger callback does (lines 110-135 and 91-94):
every one of them calls the single `shutdown` routine with its reason
string. -/
def registeredCallback (t : Trigger) : Bool → List Step :=
  shutdownSteps t.reason

/-- Whether a step is a diagnostic log line. -/
def isLogStep : Step → Bool
  | Step.log _ => true
  | _ => false

/-- The state-changing behavior of an action sequence: the sequence with the
diagnostic log lines removed. -/
def stepBehavior (steps : List Step) : List Step :=
  steps.filter (fun st => !isLogStep st)

/-- The first `process.exit` code of an action sequence, if any. -/
def exitCodeOf (steps : List Step) : Option Nat :=
  steps.findSome? (fun st =>
    match st with
    | Step.processExit c => some c
    | _ => none)

/-- Event-loop state relevant to the timer race: whether the maximum-runtime
timer is still armed, and how many shutdown invocations have started. -/
structure LoopState where
  timerArmed : Bool
  shutdownStarts : Nat
  deriving Repr, DecidableEq

/-- Effect of one step on the event-loop state: `clearTimeout` disarms the
timer; no other step re-arms it. -/
def execStep (s : LoopState) : Step → LoopState
  | Step.clearTimeout => { s with timerArmed := false }
  | _ => s

/-- Running an action sequence on the event-loop state. -/
def runSteps (steps : List Step) (s : LoopState) : LoopState :=
  steps.foldl execStep s

/-- Any shutdown trigger firing: a shutdown invocation starts and, since the
event loop is single-threaded, the routine's synchronous prefix runs
atomically before any other callback can be delivered. -/
def fireTrigger (t : Trigger) (s : LoopState) : LoopState :=
  runSteps (shutdownSyncSteps t.reason)
    { s with shutdownStarts := s.shutdownStarts + 1 }

/-- The maximum-runtime timer elapsing (lines 91-94): its callback runs, and a
shutdown starts, only if `clearTimeout` has not yet disarmed it. -/
def fireTimer (s : LoopState) : LoopState :=
  if s.timerArmed then fireTrigger Trigger.timeout s else s

/-! ## Theorems -/

/-- Shared helper: whatever the upstream call does, the handler returns a
response whose content is one item of kind "text" with a non-empty body. -/
theorem handler_shape_aux (cfg : Config) (upstream : UpstreamRequest → UpstreamResult)
    (input : String) :
    ∃ body : String,
      (handler cfg upstream input).2 =
        { content := [{ type := "text", text := body }] } ∧ body ≠ "" := by
  cases hup : upstream (buildRequest cfg input) with
  | ok resp =>
    refine ⟨jsStringOr resp.output_text "No response text available.", ?_, ?_⟩
    · simp [handler, hup]
    · cases h : resp.output_text with
      | none => simp [jsStringOr]
      | some s =>
        simp only [jsStringOr]
        by_cases hs : s = "" <;> simp [hs]
  | error e =>
    refine ⟨"Error: " ++ faultDescription e, ?_, ?_⟩
    · simp [handler, hup]
    · intro hcontra
      have h2 := congrArg String.data hcontra
      rw [String.data_append] at h2
      simp at h2

/-- C1: for every input string and every behavior of the upstream call
(resolution with any output text, or rejection with any value — the rejection
is consumed by the handler's catch, never propagated), the handler returns
exactly one ToolResponse whose content is a single item of kind "text" with a
non-empty body. -/
theorem handler_single_wellformed_response (cfg : Config)
    (upstream : UpstreamRequest → UpstreamResult) (input : String) :
    ∃ body : String,
      (handler cfg upstream input).2 =
        { content := [{ type := "text", text := body }] } ∧ body ≠ "" :=
  handler_shape_aux cfg upstream input

/-- C2 counterexample: when the upstream call resolves with output text equal
to the empty string, the response body is the fallback string, not the empty
string — the claim "the body equals T exactly, including when T is the empty
string" fails at T = "". -/
theorem empty_output_text_echo_refuted :
    (handler (readConfig fun _ => none)
        (fun _ => Except.ok { output_text := some "" }) "q").2 ≠
      { content := [{ type := "text", text := "" }] } ∧
    (handler (readConfig fun _ => none)
        (fun _ => Except.ok { output_text := some "" }) "q").2 =
      { content := [{ type := "text", text := "No response text available." }] } := by
  constructor
  · decide
  · decide

/-- C2 (amended): for every NON-EMPTY output text T with which the upstream
call resolves, the body of the returned ToolResponse equals T exactly; when T
is the empty string, the body is the fallback string instead (the source
tests the text with the JS falsy `||` operator, line 67). -/
theorem nonempty_output_text_echoed (cfg : Config)
    (upstream : UpstreamRequest → UpstreamResult) (input T : String) (hT : T ≠ "")
    (hup : upstream (buildRequest cfg input) = Except.ok { output_text := some T }) :
    (handler cfg upstream input).2 =
      { content := [{ type := "text", text := T }] } := by
  simp [handler, hup, jsStringOr, hT]

/-- Witness for C2 (amended): scenario A — input "What is the capital of
France?", upstream resolves with "Paris.", response body "Paris.". -/
theorem nonempty_output_text_echoed_witness :
    (handler (readConfig fun _ => none)
        (fun _ => Except.ok { output_text := some "Paris." })
        "What is the capital of France?").2 =
      { content := [{ type := "text", text := "Paris." }] } :=
  nonempty_output_text_echoed (readConfig fun _ => none)
    (fun _ => Except.ok { output_text := some "Paris." })
    "What is the capital of France?" "Paris." (by decide) rfl

/-- C3: when the upstream call rejects, the response body is
"Error: " ++ M when a message M is extractable from the rejection value
(it is an Error), and "Error: Unknown error occurred" otherwise. -/
theorem rejection_maps_to_error_text (cfg : Config)
    (upstream : UpstreamRequest → UpstreamResult) (input : String) (e : Option String)
    (hup : upstream (buildRequest cfg input) = Except.error e) :
    (handler cfg upstream input).2 =
      { content := [{ type := "text"
                      text := match e with
                              | some m => "Error: " ++ m
                              | none => "Error: Unknown error occurred" }] } := by
  cases e <;> simp [handler, hup, faultDescription]

/-- Witness for C3: scenario B — upstream rejects with message
"rate limit exceeded", response body "Error: rate limit exceeded". -/
theorem rejection_maps_to_error_text_witness :
    (handler (readConfig fun _ => none)
        (fun _ => Except.error (some "rate limit exceeded")) "q").2 =
      { content := [{ type := "text", text := "Error: rate limit exceeded" }] } :=
  rejection_maps_to_error_text (readConfig fun _ => none)
    (fun _ => Except.error (some "rate limit exceeded")) "q"
    (some "rate limit exceeded") rfl

/-- C4: when the upstream call resolves with no extractable output text, the
response body is the fixed fallback string "No response text available.". -/
theorem absent_output_text_gives_fallback (cfg : Config)
    (upstream : UpstreamRequest → UpstreamResult) (input : String)
    (hup : upstream (buildRequest cfg input) = Except.ok { output_text := none }) :
    (handler cfg upstream input).2 =
      { content := [{ type := "text", text := "No response text available." }] } := by
  simp [handler, hup, jsStringOr]

/-- Witness for C4: a concrete upstream resolution with absent output text
yields the fallback body. -/
theorem absent_output_text_gives_fallback_witness :
    (handler (readConfig fun _ => none)
        (fun _ => Except.ok { output_text := none }) "q").2 =
      { content := [{ type := "text", text := "No response text available." }] } :=
  absent_output_text_gives_fallback (readConfig fun _ => none)
    (fun _ => Except.ok { output_text := none }) "q" rfl

/-- C5: once any of the shutdown triggers invokes the shutdown routine, the
maximum-runtime timer is disarmed first — the only step preceding
`clearTimeout` is the diagnostic log line, which changes no state, so
`clearTimeout` heads the routine's state-changing behavior — and it happens
inside the routine's synchronous prefix, so after any trigger fires the timer
is disarmed and firing it is a no-op: it can never start a second shutdown. -/
theorem shutdown_disarms_timer_first (t : Trigger) (closeOk : Bool) (s : LoopState) :
    (stepBehavior (shutdownSteps t.reason closeOk)).head? = some Step.clearTimeout ∧
    (fireTrigger t s).timerArmed = false ∧
    fireTimer (fireTrigger t s) = fireTrigger t s := by
  refine ⟨?_, ?_, ?_⟩
  · cases closeOk <;>
      simp [stepBehavior, shutdownSteps, shutdownSyncSteps, shutdownAsyncSteps, isLogStep]
  · simp [fireTrigger, runSteps, shutdownSyncSteps, execStep]
  · have h : (fireTrigger t s).timerArmed = false := by
      simp [fireTrigger, runSteps, shutdownSyncSteps, execStep]
    simp [fireTimer, h]

/-- C6: the process exits 0 when the transport close during shutdown
succeeds, 1 when the close faults, and 1 on an unrecoverable startup fault —
for which no shutdown step (no timer disarm, no transport close) is
attempted. -/
theorem exit_code_policy (reason errDesc : String) :
    exitCodeOf (shutdownSteps reason true) = some 0 ∧
    exitCodeOf (shutdownSteps reason false) = some 1 ∧
    exitCodeOf (startupFaultSteps errDesc) = some 1 ∧
    Step.clearTimeout ∉ startupFaultSteps errDesc ∧
    Step.awaitTransportClose ∉ startupFaultSteps errDesc := by
  refine ⟨?_, ?_, ?_, ?_, ?_⟩ <;>
    simp [exitCodeOf, shutdownSteps, shutdownSyncSteps, shutdownAsyncSteps,
      startupFaultSteps, List.findSome?]

/-- C7: every invocation of the handler issues exactly one upstream call —
whatever the call's outcome, the list of issued requests is a singleton — and
the request carries the fixed model "o3", the input string, one web-search
tool descriptor with the configured context size, tool choice "auto",
parallel tool calls permitted, and the configured reasoning effort. -/
theorem one_upstream_call_fixed_params (cfg : Config)
    (upstream : UpstreamRequest → UpstreamResult) (input : String) :
    (handler cfg upstream input).1 =
      [{ model := "o3"
         input := input
         tools := [{ type := "web_search_preview"
                     search_context_size := cfg.searchContextSize }]
         tool_choice := "auto"
         parallel_tool_calls := true
         reasoning := { effort := cfg.reasoningEffort } }] := by
  show (handler cfg upstream input).1 = [buildRequest cfg input]
  cases hup : upstream (buildRequest cfg input) <;> simp [handler, hup]

/-- C8: each of the registered shutdown triggers invokes the one shutdown
routine with its reason string, and the routine's state-changing behavior
(disarm timer, close transport, exit code) is identical for any two reason
strings — the reason can affect only the log lines, which the behavior
projection removes. -/
theorem triggers_converge_on_one_shutdown (t : Trigger) (r1 r2 : String) (closeOk : Bool) :
    registeredCallback t closeOk = shutdownSteps t.reason closeOk ∧
    stepBehavior (shutdownSteps r1 closeOk) = stepBehavior (shutdownSteps r2 closeOk) := by
  refine ⟨rfl, ?_⟩
  cases closeOk <;>
    simp [stepBehavior, shutdownSteps, shutdownSyncSteps, shutdownAsyncSteps, isLogStep]

/-- C9: when the configuration variables are unset in the environment (read
once at startup — the embedding computes `readConfig env` a single time and
every later operation takes the resulting `Config` value, never the
environment), the defaults are: max retries 3, API timeout 60000 ms, search
context size "medium", reasoning effort "medium", process timeout 300000 ms. -/
theorem config_defaults (env : Env)
    (h1 : env "OPENAI_MAX_RETRIES" = none)
    (h2 : env "OPENAI_API_TIMEOUT" = none)
    (h3 : env "SEARCH_CONTEXT_SIZE" = none)
    (h4 : env "REASONING_EFFORT" = none)
    (h5 : env "PROCESS_TIMEOUT" = none) :
    (readConfig env).maxRetries = some 3 ∧
    (readConfig env).timeout = some 60000 ∧
    (readConfig env).searchContextSize = "medium" ∧
    (readConfig env).reasoningEffort = "medium" ∧
    (readConfig env).processTimeout = some 300000 := by
  refine ⟨?_, ?_, ?_, ?_, ?_⟩ <;>
    simp only [readConfig, envOr, jsStringOr, h1, h2, h3, h4, h5] <;> decide

/-- Witness for C9: the empty environment yields all five defaults. -/
theorem config_defaults_witness :
    (readConfig fun _ => none).maxRetries = some 3 ∧
    (readConfig fun _ => none).timeout = some 60000 ∧
    (readConfig fun _ => none).searchContextSize = "medium" ∧
    (readConfig fun _ => none).reasoningEffort = "medium" ∧
    (readConfig fun _ => none).processTimeout = some 300000 :=
  config_defaults (fun _ => none) rfl rfl rfl rfl rfl

/-- C10: the declared input schema requires only that the field be a string —
non-string JSON values are rejected, every string is accepted, the empty
string included; the empty string is dispatched to the handler unchanged with
no non-emptiness check, is forwarded to the upstream call as the request's
input, and still yields a well-formed single-item kind-"text" response. -/
theorem schema_accepts_empty_string (cfg : Config)
    (upstream : UpstreamRequest → UpstreamResult) :
    zString_safeParse (JsonValue.str "") = some "" ∧
    (∀ s : String, zString_safeParse (JsonValue.str s) = some s) ∧
    (∀ n : Int, zString_safeParse (JsonValue.num n) = none) ∧
    (∀ b : Bool, zString_safeParse (JsonValue.boolean b) = none) ∧
    zString_safeParse JsonValue.null = none ∧
    dispatch cfg upstream (JsonValue.str "") = some (handler cfg upstream "") ∧
    (handler cfg upstream "").1 = [buildRequest cfg ""] ∧
    ∃ body : String,
      (handler cfg upstream "").2 =
        { content := [{ type := "text", text := body }] } ∧ body ≠ "" := by
  refine ⟨rfl, fun s => rfl, fun n => rfl, fun b => rfl, rfl, rfl, ?_,
    handler_shape_aux cfg upstream ""⟩
  cases hup : upstream (buildRequest cfg "") <;> simp [handler, hup]

end O3SearchMcp
